import Mathlib

/-!
Verification of `lerobot/common/policies/act/configuration_act.py`:
the `ActionChunkingTransformerConfig` dataclass and its `__post_init__`
validation.  The Python dataclass assigns all fields and then runs
`__post_init__`, which either returns (construction succeeds) or raises
(no object is observable).  We model construction as a total function
from a fully supplied field record to `Except ConfigError Config`.

Python integers are unbounded, so `int` fields become `Int`.  The float
fields (`dropout`, `kl_weight`, `lr`, ...) are only stored by this class,
never computed with, so an exact carrier (`Rat`) is faithful for the
store/retrieve behaviour the claims are about.

`camera_names` is declared with default `("top",)` (a tuple) while the
validation compares it with the list `["top"]`; Python tuples and lists
are never `==`-equal, so the container kind is semantically significant
and is modelled explicitly by `PyStrSeq`.
-/

namespace ActConfig

/-- A Python sequence of strings that is either a tuple or a list.
Python `==` distinguishes the two container kinds: `("top",) == ["top"]`
is `False`. -/
inductive PyStrSeq where
  | tup (xs : List String) : PyStrSeq
  | lst (xs : List String) : PyStrSeq
deriving DecidableEq

/-- Python `==` on these sequences: equal kind and equal elements. -/
def PyStrSeq.pyEq : PyStrSeq → PyStrSeq → Bool
  | .tup xs, .tup ys => xs == ys
  | .lst xs, .lst ys => xs == ys
  | _, _ => false

/-- Iterating the sequence (as `set(...)` and `len(...)` do) sees the
elements regardless of the container kind. -/
def PyStrSeq.elems : PyStrSeq → List String
  | .tup xs => xs
  | .lst xs => xs

/-- Python `s.startswith(pre)`: `pre` is a prefix of the character
sequence of `s`. -/
def pyStartswith (s pre : String) : Bool :=
  pre.data.isPrefixOf s.data

/-- The fields of `ActionChunkingTransformerConfig`, with the source
defaults.  `replace_final_stride_with_dilation` is annotated `int` in the
source but its default is the bool `False`; it is never validated or
computed with, so we keep the bool carrier of its default. -/
structure Config where
  state_dim : Int := 14
  action_dim : Int := 14
  n_obs_steps : Int := 1
  camera_names : PyStrSeq := .tup ["top"]
  chunk_size : Int := 100
  n_action_steps : Int := 100
  input_shapes : List (String × List Int) :=
    [("observation.images.top", [3, 480, 640]), ("observation.state", [14])]
  output_shapes : List (String × List Int) := [("action", [14])]
  normalize_input_modes : List (String × String) :=
    [("observation.image", "mean_std"), ("observation.state", "mean_std")]
  unnormalize_output_modes : List (String × String) := [("action", "mean_std")]
  vision_backbone : String := "resnet18"
  use_pretrained_backbone : Bool := true
  replace_final_stride_with_dilation : Bool := false
  pre_norm : Bool := false
  d_model : Int := 512
  n_heads : Int := 8
  dim_feedforward : Int := 3200
  feedforward_activation : String := "relu"
  n_encoder_layers : Int := 4
  n_decoder_layers : Int := 1
  use_vae : Bool := true
  latent_dim : Int := 32
  n_vae_encoder_layers : Int := 4
  use_temporal_aggregation : Bool := false
  dropout : Rat := 0.1
  kl_weight : Rat := 10.0
  batch_size : Int := 8
  lr : Rat := 1e-5
  lr_backbone : Rat := 1e-5
  weight_decay : Rat := 1e-4
  grad_clip_norm : Rat := 10
  utd : Int := 1
deriving DecidableEq

/-- One constructor per `raise` site of `__post_init__`, carrying exactly
the values the corresponding f-string message interpolates.
`ValueError` sites map to the InvalidValue kind, the
`NotImplementedError` site to the Unimplemented kind (see
`ConfigError.kind`). -/
inductive ConfigError where
  | invalidVisionBackbone (got : String) : ConfigError
  | unimplementedTemporalAggregation : ConfigError
  | invalidNActionSteps (n_action_steps chunk_size : Int) : ConfigError
  | invalidNObsSteps (n_obs_steps : Int) : ConfigError
  | invalidCameraNames (got : PyStrSeq) : ConfigError
  | duplicateCameraNames (got : PyStrSeq) : ConfigError
deriving DecidableEq

/-- The two kinds of exception `__post_init__` can raise. -/
inductive ErrorKind where
  | invalidValue : ErrorKind
  | unimplemented : ErrorKind
deriving DecidableEq

/-- `ValueError` is the InvalidValue kind; `NotImplementedError` is the
Unimplemented kind. -/
def ConfigError.kind : ConfigError → ErrorKind
  | .unimplementedTemporalAggregation => .unimplemented
  | _ => .invalidValue

/-- `__post_init__`: the six checks, in source order; the first failing
check raises and the rest are not evaluated. -/
def postInit (c : Config) : Except ConfigError Unit :=
  if ¬ pyStartswith c.vision_backbone "resnet" then
    .error (.invalidVisionBackbone c.vision_backbone)
  else if c.use_temporal_aggregation then
    .error .unimplementedTemporalAggregation
  else if c.n_action_steps > c.chunk_size then
    .error (.invalidNActionSteps c.n_action_steps c.chunk_size)
  else if c.n_obs_steps ≠ 1 then
    .error (.invalidNObsSteps c.n_obs_steps)
  else if ¬ c.camera_names.pyEq (.lst ["top"]) then
    .error (.invalidCameraNames c.camera_names)
  else if (c.camera_names.elems.dedup.length ≠ c.camera_names.elems.length) then
    .error (.duplicateCameraNames c.camera_names)
  else
    .ok ()

/-- Dataclass construction: fields are assigned, then `__post_init__`
runs; if it raises, no object is observable. -/
def mkConfig (c : Config) : Except ConfigError Config :=
  (postInit c).map (fun _ => c)

/-- Construction with no field overrides. -/
def defaultConfig : Config := {}

/-- The single-quote character Python repr wraps strings in (ASCII 39). -/
def squote : String := String.singleton (Char.ofNat 39)

/-- Python `repr` of a string (the names in play need no escaping). -/
def pyStrRepr (s : String) : String := squote ++ s ++ squote

/-- Python `repr` of a tuple or list of strings: a one-element tuple
renders with a trailing comma. -/
def PyStrSeq.pyRepr : PyStrSeq → String
  | .tup [x] => "(" ++ pyStrRepr x ++ ",)"
  | .tup xs => "(" ++ String.intercalate ", " (xs.map pyStrRepr) ++ ")"
  | .lst xs => "[" ++ String.intercalate ", " (xs.map pyStrRepr) ++ "]"

/-- The exception message of each `raise` site, with the f-string
interpolations of the source. -/
def ConfigError.message : ConfigError → String
  | .invalidVisionBackbone got =>
      "`vision_backbone` must be one of the ResNet variants. Got " ++ got ++ "."
  | .unimplementedTemporalAggregation =>
      "Temporal aggregation is not yet implemented."
  | .invalidNActionSteps n_action_steps chunk_size =>
      "The chunk size is the upper bound for the number of action steps per model invocation. Got "
        ++ toString n_action_steps ++ " for `n_action_steps` and " ++ toString chunk_size
        ++ " for `chunk_size`."
  | .invalidNObsSteps n_obs_steps =>
      "Multiple observation steps not handled yet. Got `nobs_steps=" ++ toString n_obs_steps ++ "`"
  | .invalidCameraNames got =>
      "For now, `camera_names` can only be [" ++ pyStrRepr "top" ++ "]. Got "
        ++ got.pyRepr ++ "."
  | .duplicateCameraNames got =>
      "`camera_names` should not have any repeated entries. Got " ++ got.pyRepr ++ "."

/-- The six validation checks as the spec lists them, in spec order
(index 0 to 5): check `i` passes on `c`.  Indices past 5 denote no
check and always pass. -/
def checkPasses (c : Config) : Nat → Bool
  | 0 => pyStartswith c.vision_backbone "resnet"
  | 1 => !c.use_temporal_aggregation
  | 2 => decide (c.n_action_steps ≤ c.chunk_size)
  | 3 => decide (c.n_obs_steps = 1)
  | 4 => c.camera_names.pyEq (.lst ["top"])
  | 5 => decide c.camera_names.elems.Nodup
  | _ => true

/-- The error each check raises when it is the one that fails.  Indices
past 5 are unreachable under `checkPasses` and get an arbitrary value. -/
def checkError (c : Config) : Nat → ConfigError
  | 0 => .invalidVisionBackbone c.vision_backbone
  | 1 => .unimplementedTemporalAggregation
  | 2 => .invalidNActionSteps c.n_action_steps c.chunk_size
  | 3 => .invalidNObsSteps c.n_obs_steps
  | 4 => .invalidCameraNames c.camera_names
  | 5 => .duplicateCameraNames c.camera_names
  | _ => .invalidVisionBackbone c.vision_backbone

/-- Recognizer for the repeated-entries error. -/
def ConfigError.isDuplicateCameraNames : ConfigError → Bool
  | .duplicateCameraNames _ => true
  | _ => false

/-! Helper lemmas shared across the claim theorems. -/

/-- Python `==` with the list `["top"]` holds exactly for the list
`["top"]` itself; in particular never for a tuple. -/
lemma pyEq_lst_top (s : PyStrSeq) : s.pyEq (.lst ["top"]) = true ↔ s = .lst ["top"] := by
  cases s with
  | tup xs => simp [PyStrSeq.pyEq]
  | lst xs => simp [PyStrSeq.pyEq]

/-- When the five reachable checks pass, `__post_init__` returns. -/
lemma postInit_ok (c : Config)
    (hb : pyStartswith c.vision_backbone "resnet" = true)
    (ht : c.use_temporal_aggregation = false)
    (hle : c.n_action_steps ≤ c.chunk_size)
    (hobs : c.n_obs_steps = 1)
    (hcam : c.camera_names = .lst ["top"]) :
    postInit c = .ok () := by
  simp [postInit, hb, ht, not_lt.mpr hle, hobs, hcam, PyStrSeq.pyEq, PyStrSeq.elems]

/-- When the five reachable checks pass, construction returns exactly the
supplied record. -/
lemma mkConfig_ok (c : Config)
    (hb : pyStartswith c.vision_backbone "resnet" = true)
    (ht : c.use_temporal_aggregation = false)
    (hle : c.n_action_steps ≤ c.chunk_size)
    (hobs : c.n_obs_steps = 1)
    (hcam : c.camera_names = .lst ["top"]) :
    mkConfig c = .ok c := by
  simp [mkConfig, postInit_ok c hb ht hle hobs hcam, Except.map]







/-- C1: the claimed field defaults are indeed `state_dim = 14`,
`action_dim = 14`, `chunk_size = 100`, `n_action_steps = 100`,
`vision_backbone = "resnet18"`, `use_vae = true`, but default
construction does not succeed: the default `camera_names` is the tuple
`("top",)`, which is never `==`-equal to the list `["top"]` the
exact-match check compares against, so `__post_init__` raises
`ValueError`. -/
theorem default_construction_raises_on_camera_tuple :
    mkConfig defaultConfig = .error (.invalidCameraNames (.tup ["top"])) ∧
    (ConfigError.invalidCameraNames (.tup ["top"])).kind = .invalidValue ∧
    defaultConfig.state_dim = 14 ∧ defaultConfig.action_dim = 14 ∧
    defaultConfig.chunk_size = 100 ∧ defaultConfig.n_action_steps = 100 ∧
    defaultConfig.vision_backbone = "resnet18" ∧ defaultConfig.use_vae = true :=
  ⟨rfl, rfl, rfl, rfl, rfl, rfl, rfl, rfl⟩

/-- C6: `camera_names = ["top", "top"]` fails with an InvalidValue
error, `camera_names = ["left"]` fails the exact-match check with an
InvalidValue error, and `camera_names = ["top"]` (the list) succeeds.
Both failures come from the exact-match raise site, whose kind is
InvalidValue. -/
theorem camera_names_example_behaviour :
    mkConfig { camera_names := .lst ["top", "top"] } =
      .error (.invalidCameraNames (.lst ["top", "top"])) ∧
    (ConfigError.invalidCameraNames (.lst ["top", "top"])).kind = .invalidValue ∧
    mkConfig { camera_names := .lst ["left"] } =
      .error (.invalidCameraNames (.lst ["left"])) ∧
    (ConfigError.invalidCameraNames (.lst ["left"])).kind = .invalidValue ∧
    mkConfig { camera_names := .lst ["top"] } = .ok { camera_names := .lst ["top"] } :=
  ⟨rfl, rfl, rfl, rfl, rfl⟩

/-- C8: whenever `vision_backbone` does not start with `"resnet"`,
construction fails — regardless of every other field — with the
InvalidValue error whose message names the offending value. -/
theorem non_resnet_backbone_always_invalid (c : Config)
    (h : pyStartswith c.vision_backbone "resnet" = false) :
    mkConfig c = .error (.invalidVisionBackbone c.vision_backbone) ∧
    (ConfigError.invalidVisionBackbone c.vision_backbone).kind = .invalidValue ∧
    (ConfigError.invalidVisionBackbone c.vision_backbone).message =
      "`vision_backbone` must be one of the ResNet variants. Got "
        ++ c.vision_backbone ++ "." := by
  refine ⟨?_, rfl, rfl⟩
  simp [mkConfig, postInit, h, Except.map]

/-- Witness for C8 at `vision_backbone = "vit_base"`. -/
theorem non_resnet_backbone_always_invalid_witness :
    mkConfig { vision_backbone := "vit_base" } = .error (.invalidVisionBackbone "vit_base") :=
  (non_resnet_backbone_always_invalid { vision_backbone := "vit_base" } rfl).1

/-- C9: the repeated-entries raise site is unreachable: `__post_init__`
never produces the duplicate-camera-names error, because any
`camera_names` reaching that check already passed the exact-equality
check against `["top"]` and so is a one-element list. -/
theorem duplicate_camera_error_unreachable (c : Config) (e : ConfigError)
    (h : postInit c = .error e) : e.isDuplicateCameraNames = false := by
  unfold postInit at h
  split_ifs at h with h1 h2 h3 h4 h5 h6
  any_goals (injection h with h; rw [h.symm]; rfl)
  exfalso
  rw [pyEq_lst_top] at h5
  rw [h5] at h6
  simp [PyStrSeq.elems] at h6

/-- Witness for C9 at the default config, which errors on the camera
exact-match check. -/
theorem duplicate_camera_error_unreachable_witness :
    (ConfigError.invalidCameraNames (.tup ["top"])).isDuplicateCameraNames = false :=
  duplicate_camera_error_unreachable defaultConfig _ rfl

/-- Counterexample to C2: with `vision_backbone = "vit_base"` and
`use_temporal_aggregation = true`, construction fails with the backbone
InvalidValue error, not the Unimplemented error. -/
theorem temporal_aggregation_error_kind_counterexample :
    mkConfig { vision_backbone := "vit_base", use_temporal_aggregation := true } =
      .error (.invalidVisionBackbone "vit_base") ∧
    (ConfigError.invalidVisionBackbone "vit_base").kind = .invalidValue ∧
    ErrorKind.invalidValue ≠ ErrorKind.unimplemented :=
  ⟨rfl, rfl, fun hk => ErrorKind.noConfusion hk⟩

/-- C2 (amended): `use_temporal_aggregation = true` always makes
construction fail, but the failure is the Unimplemented error exactly
when `vision_backbone` starts with `"resnet"` (the only earlier check);
otherwise it is the backbone InvalidValue error. -/
theorem temporal_aggregation_always_fails (c : Config)
    (h : c.use_temporal_aggregation = true) :
    (∃ e, mkConfig c = .error e) ∧
    (pyStartswith c.vision_backbone "resnet" = true →
      mkConfig c = .error .unimplementedTemporalAggregation) ∧
    (pyStartswith c.vision_backbone "resnet" = false →
      mkConfig c = .error (.invalidVisionBackbone c.vision_backbone)) := by
  cases hb : pyStartswith c.vision_backbone "resnet" with
  | false =>
    have herr : mkConfig c = .error (.invalidVisionBackbone c.vision_backbone) := by
      simp [mkConfig, postInit, hb, Except.map]
    exact ⟨⟨_, herr⟩, ⟨fun htrue => Bool.noConfusion htrue, fun _ => herr⟩⟩
  | true =>
    have herr : mkConfig c = .error .unimplementedTemporalAggregation := by
      simp [mkConfig, postInit, hb, h, Except.map]
    exact ⟨⟨_, herr⟩, ⟨fun _ => herr, fun hfalse => Bool.noConfusion hfalse⟩⟩

/-- Witness for C2 (amended) with only `use_temporal_aggregation`
overridden. -/
theorem temporal_aggregation_always_fails_witness :
    mkConfig { use_temporal_aggregation := true } = .error .unimplementedTemporalAggregation :=
  (temporal_aggregation_always_fails { use_temporal_aggregation := true } rfl).2.1 rfl

/-- C4: whenever the supplied field values satisfy the validation
invariants, construction succeeds and returns exactly the supplied
record, so every field of the constructed object equals the supplied
value.  (The sixth invariant, no duplicate camera names, is implied by
the fifth and is an unused hypothesis.) -/
theorem valid_construction_roundtrip (c : Config)
    (h1 : pyStartswith c.vision_backbone "resnet" = true)
    (h2 : c.use_temporal_aggregation = false)
    (h3 : c.n_action_steps ≤ c.chunk_size)
    (h4 : c.n_obs_steps = 1)
    (h5 : c.camera_names.pyEq (.lst ["top"]) = true)
    (_h6 : c.camera_names.elems.Nodup) :
    mkConfig c = .ok c :=
  mkConfig_ok c h1 h2 h3 h4 ((pyEq_lst_top c.camera_names).mp h5)

/-- Witness for C4 with `camera_names` the list `["top"]` and the other
fields default. -/
theorem valid_construction_roundtrip_witness :
    mkConfig { camera_names := .lst ["top"] } = .ok { camera_names := .lst ["top"] } :=
  valid_construction_roundtrip { camera_names := .lst ["top"] }
    (by decide) rfl (by decide) rfl (by decide) (by decide)

/-- Counterexample to C5: with `n_action_steps = 150 > 100 = chunk_size`
but `use_temporal_aggregation = true`, the failure is the Unimplemented
error, not InvalidValue, because the temporal-aggregation check runs
first. -/
theorem n_action_steps_error_kind_counterexample :
    mkConfig { n_action_steps := 150, chunk_size := 100, use_temporal_aggregation := true } =
      .error .unimplementedTemporalAggregation ∧
    ConfigError.unimplementedTemporalAggregation.kind = .unimplemented ∧
    ErrorKind.unimplemented ≠ ErrorKind.invalidValue :=
  ⟨rfl, rfl, fun hk => ErrorKind.noConfusion hk⟩

/-- C5 (amended): `n_action_steps > chunk_size` always makes
construction fail, and the failure is the InvalidValue error reporting
both values whenever the two earlier checks pass; `n_action_steps ≤
chunk_size` passes this check, and construction succeeds provided the
remaining checks pass (in particular `camera_names` must be the list
`["top"]`). -/
theorem n_action_steps_chunk_size_bound (c : Config) :
    (c.n_action_steps > c.chunk_size →
      (∃ e, mkConfig c = .error e) ∧
      (pyStartswith c.vision_backbone "resnet" = true → c.use_temporal_aggregation = false →
        mkConfig c = .error (.invalidNActionSteps c.n_action_steps c.chunk_size) ∧
        (ConfigError.invalidNActionSteps c.n_action_steps c.chunk_size).kind = .invalidValue)) ∧
    (c.n_action_steps ≤ c.chunk_size →
      pyStartswith c.vision_backbone "resnet" = true → c.use_temporal_aggregation = false →
      c.n_obs_steps = 1 → c.camera_names = .lst ["top"] →
      mkConfig c = .ok c) := by
  constructor
  · intro hgt
    constructor
    · cases hb : pyStartswith c.vision_backbone "resnet" with
      | false =>
        exact ⟨.invalidVisionBackbone c.vision_backbone,
          by simp [mkConfig, postInit, hb, Except.map]⟩
      | true =>
        cases ht : c.use_temporal_aggregation with
        | true =>
          exact ⟨.unimplementedTemporalAggregation,
            by simp [mkConfig, postInit, hb, ht, Except.map]⟩
        | false =>
          exact ⟨.invalidNActionSteps c.n_action_steps c.chunk_size,
            by simp [mkConfig, postInit, hb, ht, hgt, Except.map]⟩
    · intro hb ht
      exact ⟨by simp [mkConfig, postInit, hb, ht, hgt, Except.map], rfl⟩
  · intro hle hb ht hobs hcam
    exact mkConfig_ok c hb ht hle hobs hcam

/-- Witness for C5 (amended) at `n_action_steps = 150`,
`chunk_size = 100` with the earlier checks passing. -/
theorem n_action_steps_chunk_size_bound_witness :
    mkConfig { n_action_steps := 150, chunk_size := 100 } =
      .error (.invalidNActionSteps 150 100) :=
  (((n_action_steps_chunk_size_bound { n_action_steps := 150, chunk_size := 100 }).1
    (by decide)).2 (by decide) rfl).1

/-- Counterexample to C7: construction succeeds with `state_dim = 0`,
`action_dim = -3`, `chunk_size = 0` and `n_action_steps = -1`, all of
them zero or negative. -/
theorem positivity_not_enforced_counterexample :
    mkConfig { state_dim := 0, action_dim := -3, chunk_size := 0, n_action_steps := -1,
               camera_names := .lst ["top"] } =
      .ok { state_dim := 0, action_dim := -3, chunk_size := 0, n_action_steps := -1,
            camera_names := .lst ["top"] } :=
  rfl

/-- C7 (amended): `__post_init__` never inspects the sign of
`state_dim`, `action_dim`, `chunk_size` or `n_action_steps`:
construction succeeds for every value of these four fields — including
zero and negative ones — as long as `n_action_steps ≤ chunk_size` and
the remaining checks pass. -/
theorem positivity_not_validated (s a cs nas : Int) (h : nas ≤ cs) :
    mkConfig { state_dim := s, action_dim := a, chunk_size := cs, n_action_steps := nas,
               camera_names := .lst ["top"] } =
      .ok { state_dim := s, action_dim := a, chunk_size := cs, n_action_steps := nas,
            camera_names := .lst ["top"] } :=
  mkConfig_ok _ rfl rfl h rfl rfl

/-- Witness for C7 (amended) at non-positive values. -/
theorem positivity_not_validated_witness :
    mkConfig { state_dim := -1, action_dim := 0, chunk_size := 0, n_action_steps := -5,
               camera_names := .lst ["top"] } =
      .ok { state_dim := -1, action_dim := 0, chunk_size := 0, n_action_steps := -5,
            camera_names := .lst ["top"] } :=
  positivity_not_validated (-1) 0 0 (-5) (by decide)

/-- Counterexample to C10: with the default tuple `camera_names` but
`use_temporal_aggregation = true`, construction fails with the
Unimplemented error, not an InvalidValue error, because the
temporal-aggregation check runs before the camera exact-match check. -/
theorem tuple_camera_error_kind_counterexample :
    ({ use_temporal_aggregation := true } : Config).camera_names = .tup ["top"] ∧
    mkConfig { use_temporal_aggregation := true } =
      .error .unimplementedTemporalAggregation ∧
    ConfigError.unimplementedTemporalAggregation.kind ≠ ErrorKind.invalidValue :=
  ⟨rfl, rfl, fun hk => ErrorKind.noConfusion hk⟩

/-- C10 (amended): for every tuple value of `camera_names` — including
the declared default `("top",)` — construction fails: with the
exact-match InvalidValue error whenever the four earlier checks pass,
and with the earlier check's own error otherwise; the only
`camera_names` value for which construction can succeed is the list
`["top"]`. -/
theorem tuple_camera_names_never_succeed (c : Config) :
    ((∃ xs, c.camera_names = .tup xs) →
      (∃ e, mkConfig c = .error e) ∧
      (pyStartswith c.vision_backbone "resnet" = true → c.use_temporal_aggregation = false →
        c.n_action_steps ≤ c.chunk_size → c.n_obs_steps = 1 →
        mkConfig c = .error (.invalidCameraNames c.camera_names) ∧
        (ConfigError.invalidCameraNames c.camera_names).kind = .invalidValue)) ∧
    (∀ r, mkConfig c = .ok r → c.camera_names = .lst ["top"]) := by
  constructor
  · rintro ⟨xs, hx⟩
    have hpy : c.camera_names.pyEq (.lst ["top"]) = false := by
      rw [hx]; rfl
    constructor
    · cases hb : pyStartswith c.vision_backbone "resnet" with
      | false =>
        exact ⟨.invalidVisionBackbone c.vision_backbone,
          by simp [mkConfig, postInit, hb, Except.map]⟩
      | true =>
        cases ht : c.use_temporal_aggregation with
        | true =>
          exact ⟨.unimplementedTemporalAggregation,
            by simp [mkConfig, postInit, hb, ht, Except.map]⟩
        | false =>
          by_cases hgt : c.n_action_steps > c.chunk_size
          · exact ⟨.invalidNActionSteps c.n_action_steps c.chunk_size,
              by simp [mkConfig, postInit, hb, ht, hgt, Except.map]⟩
          · by_cases hobs : c.n_obs_steps = 1
            · exact ⟨.invalidCameraNames c.camera_names,
                by simp [mkConfig, postInit, hb, ht, hgt, hobs, hpy, Except.map]⟩
            · exact ⟨.invalidNObsSteps c.n_obs_steps,
                by simp [mkConfig, postInit, hb, ht, hgt, hobs, Except.map]⟩
    · intro hb ht hle hobs
      exact ⟨by simp [mkConfig, postInit, hb, ht, not_lt.mpr hle, hobs, hpy, Except.map], rfl⟩
  · intro r hr
    have hp : postInit c = .ok () := by
      cases hpi : postInit c with
      | ok u => cases u; rfl
      | error e => rw [mkConfig, hpi] at hr; simp [Except.map] at hr
    unfold postInit at hp
    split_ifs at hp with h1 h2 h3 h4 h5 h6
    any_goals cases hp
    exact (pyEq_lst_top c.camera_names).mp h5

/-- Witness for C10 (amended) at the default config: its tuple
`camera_names` makes construction fail on the exact-match check. -/
theorem tuple_camera_names_never_succeed_witness :
    mkConfig defaultConfig = .error (.invalidCameraNames (.tup ["top"])) :=
  (((tuple_camera_names_never_succeed defaultConfig).1 ⟨["top"], rfl⟩).2
    rfl rfl (by decide) rfl).1


/-- C3: the six validation checks run in the listed order and the first
violated check determines the error raised: if check `i` fails on `c`
and every earlier check passes, `__post_init__` raises exactly the
error of check `i`. -/
theorem first_violated_check_determines_error (c : Config) (i : Nat)
    (hv : checkPasses c i = false)
    (hfirst : ∀ j, j < i → checkPasses c j = true) :
    postInit c = .error (checkError c i) := by
  match i with
  | 0 =>
    simp only [checkPasses] at hv
    simp [postInit, checkError, hv]
  | 1 =>
    have h0 := hfirst 0 (by omega)
    simp only [checkPasses] at hv h0
    rw [Bool.not_eq_false'] at hv
    simp [postInit, checkError, h0, hv]
  | 2 =>
    have h0 := hfirst 0 (by omega)
    have h1 := hfirst 1 (by omega)
    simp only [checkPasses] at hv h0 h1
    rw [Bool.not_eq_true'] at h1
    rw [decide_eq_false_iff_not, not_le] at hv
    simp [postInit, checkError, h0, h1, hv]
  | 3 =>
    have h0 := hfirst 0 (by omega)
    have h1 := hfirst 1 (by omega)
    have h2 := hfirst 2 (by omega)
    simp only [checkPasses] at hv h0 h1 h2
    rw [Bool.not_eq_true'] at h1
    rw [decide_eq_true_iff] at h2
    rw [decide_eq_false_iff_not] at hv
    simp [postInit, checkError, h0, h1, not_lt.mpr h2, hv]
  | 4 =>
    have h0 := hfirst 0 (by omega)
    have h1 := hfirst 1 (by omega)
    have h2 := hfirst 2 (by omega)
    have h3 := hfirst 3 (by omega)
    simp only [checkPasses] at hv h0 h1 h2 h3
    rw [Bool.not_eq_true'] at h1
    rw [decide_eq_true_iff] at h2
    rw [decide_eq_true_iff] at h3
    simp [postInit, checkError, h0, h1, not_lt.mpr h2, h3, hv]
  | 5 =>
    have h4 := hfirst 4 (by omega)
    simp only [checkPasses] at hv h4
    rw [pyEq_lst_top] at h4
    rw [decide_eq_false_iff_not] at hv
    rw [h4] at hv
    exact absurd (by simp [PyStrSeq.elems]) hv
  | (n + 6) =>
    exact absurd hv (by simp [checkPasses])

/-- Witness for C3 at the temporal-aggregation check (index 1). -/
theorem first_violated_check_determines_error_witness :
    postInit { use_temporal_aggregation := true } =
      .error .unimplementedTemporalAggregation :=
  first_violated_check_determines_error { use_temporal_aggregation := true } 1
    rfl (by decide)

end ActConfig
